import Mathlib

/-!
Shallow embedding of `popularEventsScrapper.py` (class `EventScraper`).

External collaborators (the HTTP fetches, the LLM extraction/cleaning calls,
and the Salesforce client) are modelled as behaviour parameters: each
collaborator call site is represented by the outcome that call produced.
Python exceptions are modelled with `Except PyError`; a Python function that
catches internally and returns a value is modelled as a total Lean function.
Collaborator field values are modelled as strings (the JSON schema the code
expects); Python string slicing `s[:n]` is by code points, modelled as
`List.take` on the character list.
-/

/-- Python exception classes relevant to the sync/scrape call sites.
The source never inspects the class (its inner `except:` is bare); the class
is carried so that claims about "error classes" can be stated. -/
inductive PyErrorClass where
  | networkError
  | schemaNotFound
  | permissionError
  | extractionError
  | otherError
deriving DecidableEq

/-- A Python exception: a class together with its message (`str(e)`). -/
structure PyError where
  cls : PyErrorClass
  msg : String
deriving DecidableEq

/-- The `Event` dataclass (all fields are strings in the source). -/
structure Event where
  name : String
  date : String
  description : String
  venue : String
  category : String
  url : String
  source : String
deriving DecidableEq

/-- One element of the JSON array returned by the cleaning LLM call: a JSON
object whose expected keys may be absent (`event_data.get(key, '')`). -/
structure CRecord where
  name : Option String
  date : Option String
  description : Option String
  venue : Option String
  category : Option String
  url : Option String
  source : Option String
deriving DecidableEq

/-- Event construction from a cleaned record, mirroring the
`Event(name=event_data.get('name', ''), ...)` calls in
`process_and_clean_events`. -/
def eventOfRecord (r : CRecord) : Event :=
  { name := r.name.getD ""
    date := r.date.getD ""
    description := r.description.getD ""
    venue := r.venue.getD ""
    category := r.category.getD ""
    url := r.url.getD ""
    source := r.source.getD "" }

/-- Outcome of the cleaning LLM call in `process_and_clean_events`, as seen by
the code after `json.loads(response.content)`:
`decodeError` is a `json.JSONDecodeError` raise (caught by the code);
`records rs` is a successfully parsed JSON array of objects;
`malformed e` is parsed JSON of the wrong shape, whose subsequent iteration
or `.get` raises exception `e` (not caught inside `process_and_clean_events`). -/
inductive CleanLLMResult where
  | decodeError
  | records (rs : List CRecord)
  | malformed (e : PyError)
deriving DecidableEq

/-- The loop of `scrape_events_from_web`: each source function is run in turn;
on success its events are appended (`events.extend(source_events)`), on any
exception the loop logs and continues.  A source function is modelled by its
behaviour `String → String → Int → Except PyError (List Event)` applied to
`(location, month, year)`. -/
def scrape_events_from_web :
    List (String → String → Int → Except PyError (List Event)) →
    String → String → Int → List Event
  | [], _, _, _ => []
  | f :: rest, location, month, year =>
    match f location month year with
    | Except.ok source_events =>
        source_events ++ scrape_events_from_web rest location month year
    | Except.error _ => scrape_events_from_web rest location month year

/-- Embedding of `process_and_clean_events`: on empty input return `[]`
without calling the LLM; otherwise the LLM response is parsed —
`JSONDecodeError` returns the original events, a parsed array of objects is
rebuilt into Events, and a wrong-shaped parse raises out of the function. -/
def process_and_clean_events (events : List Event) (llm : CleanLLMResult) :
    Except PyError (List Event) :=
  match events with
  | [] => Except.ok []
  | _ :: _ =>
    match llm with
    | CleanLLMResult.decodeError => Except.ok events
    | CleanLLMResult.records rs => Except.ok (List.map eventOfRecord rs)
    | CleanLLMResult.malformed e => Except.error e

/-- Python `s[:n]` (slice by code points). -/
def pyTake (s : String) (n : Nat) : String :=
  String.mk (s.data.take n)

/-- One `Event__c` record as prepared in `update_salesforce_location`
(`events_data` entries; `__c` suffixes dropped from the field names). -/
structure SFRec where
  Name : String
  Event_Date : String
  Description : String
  Venue : String
  Category : String
  Event_URL : String
  Source : String
  Location : String
deriving DecidableEq

/-- One entry of the `events_summary` JSON written in the fallback branch. -/
structure SumRec where
  name : String
  date : String
  venue : String
  category : String
deriving DecidableEq

/-- Building one `events_data` entry:
`'Description__c': event.description[:255] if event.description else ''`. -/
def sfRecOf (location_id : String) (e : Event) : SFRec :=
  { Name := e.name
    Event_Date := e.date
    Description := if e.description = "" then "" else pyTake e.description 255
    Venue := e.venue
    Category := e.category
    Event_URL := e.url
    Source := e.source
    Location := location_id }

/-- Building one `events_summary` entry (the fallback keeps
name, date, venue and category only). -/
def sumRecOf (e : Event) : SumRec :=
  { name := e.name, date := e.date, venue := e.venue, category := e.category }

/-- A successful Salesforce write performed by `update_salesforce_location`:
either the `Event__c.create` bulk insert, or the `Location.update` with the
summary JSON and the `Last_Events_Update__c` date. -/
inductive Write where
  | createDetail (recs : List SFRec)
  | updateSummary (location_id : String) (summary : List SumRec) (lastUpdate : String)
deriving DecidableEq

/-- Behaviour of the Salesforce client at the three call sites of
`update_salesforce_location`: `query` resolves the location name to the Id of
the first returned record (none when `records` is empty), `event_c_create`
is `sf.Event__c.create`, `location_update` is `sf.Location.update`, and
`now` is `datetime.now().strftime('%Y-%m-%d')`. -/
structure SFEnv where
  query : String → Except PyError (Option String)
  event_c_create : List SFRec → Except PyError Unit
  location_update : String → List SumRec → String → Except PyError Unit
  now : String

/-- Embedding of `update_salesforce_location`.  The outer `try` catches a
query failure and a `Location.update` failure (returning `False`); a missing
location record returns `False` before any write; the inner bare `except:`
around `Event__c.create` falls back to the summary-field update on ANY
exception.  The returned list records the successful writes. -/
def update_salesforce_location (env : SFEnv) (location_name : String)
    (events : List Event) : Bool × List Write :=
  match env.query location_name with
  | Except.error _ => (false, [])
  | Except.ok none => (false, [])
  | Except.ok (some location_id) =>
    let events_data := events.map (sfRecOf location_id)
    match env.event_c_create events_data with
    | Except.ok _ => (true, [Write.createDetail events_data])
    | Except.error _ =>
      let events_summary := (events.take 10).map sumRecOf
      match env.location_update location_id events_summary env.now with
      | Except.ok _ =>
          (true, [Write.updateSummary location_id events_summary env.now])
      | Except.error _ => (false, [])

/-- Projection `{name, date, venue, category, source}` used for the
`'events'` entry of the result dictionary. -/
structure EventSummaryEntry where
  name : String
  date : String
  venue : String
  category : String
  source : String
deriving DecidableEq

/-- The projection applied to each cleaned event in
`run_event_scraping_for_location`. -/
def projOf (e : Event) : EventSummaryEntry :=
  { name := e.name, date := e.date, venue := e.venue,
    category := e.category, source := e.source }

/-- The result dictionary of `run_event_scraping_for_location`; keys absent
from a branch are modelled as `none`. -/
structure RunReport where
  success : Bool
  location : String
  month : String
  year : Int
  raw_events_count : Option Nat
  cleaned_events_count : Option Nat
  events : Option (List EventSummaryEntry)
  error : Option String
deriving DecidableEq

/-- Collaborator behaviours of one pipeline run: the four source-scraper
behaviours (in the caller-supplied order of the `sources` list), the cleaning
LLM behaviour as a function of the raw pool, and the Salesforce client. -/
structure Env where
  adapters : List (String → String → Int → Except PyError (List Event))
  cleanLLM : List Event → CleanLLMResult
  sf : SFEnv

/-- Raw candidate pool (Step 1 of `run_event_scraping_for_location`). -/
def pipeline_pool (env : Env) (location_name month : String) (year : Int) :
    List Event :=
  scrape_events_from_web env.adapters location_name month year

/-- Cleaned events (Step 2).  This is the only stage of the pipeline body
that can raise: the scrape loop catches per source, and
`update_salesforce_location` catches everything. -/
def pipeline_cleaned (env : Env) (location_name month : String) (year : Int) :
    Except PyError (List Event) :=
  process_and_clean_events (pipeline_pool env location_name month year)
    (env.cleanLLM (pipeline_pool env location_name month year))

/-- Embedding of `run_event_scraping_for_location`: the `try` body runs the
three steps and builds the success-shaped dictionary; `except Exception`
builds the error-shaped dictionary (`success`, `error`, `location`, `month`,
`year` only).  The second component collects the Salesforce writes. -/
def run_event_scraping_for_location (env : Env) (location_name month : String)
    (year : Int) : RunReport × List Write :=
  match pipeline_cleaned env location_name month year with
  | Except.error e =>
    ({ success := false
       location := location_name
       month := month
       year := year
       raw_events_count := none
       cleaned_events_count := none
       events := none
       error := some e.msg }, [])
  | Except.ok cleaned_events =>
    let res := update_salesforce_location env.sf location_name cleaned_events
    ({ success := res.1
       location := location_name
       month := month
       year := year
       raw_events_count := some (pipeline_pool env location_name month year).length
       cleaned_events_count := some cleaned_events.length
       events := some (cleaned_events.map projOf)
       error := none }, res.2)

/-- Number of events in a list carrying the fingerprint `(n, d)`
(literal name and date; the source performs no further normalization). -/
def fpCount (l : List Event) (n d : String) : Nat :=
  (l.filter fun e => decide (e.name = n ∧ e.date = d)).length

/-- A concrete event used by the evaluation theorems. -/
def ev1 : Event :=
  { name := "Jazz Night", date := "2024-01-15",
    description := "Live jazz downtown", venue := "Blue Room",
    category := "Music", url := "", source := "Eventbrite" }

/-- The same real-world event as `ev1`, reported by a second source. -/
def ev2 : Event :=
  { name := "Jazz Night", date := "2024-01-15",
    description := "A jazz show", venue := "Blue Room",
    category := "Music", url := "", source := "Ticketmaster" }

/-- A concrete cleaned record with the same fingerprint as `ev1`. -/
def crec1 : CRecord :=
  { name := some "Jazz Night", date := some "2024-01-15",
    description := some "Live jazz downtown", venue := some "Blue Room",
    category := some "Music", url := some "", source := some "Eventbrite" }

/-- A second concrete cleaned record with a distinct fingerprint. -/
def crec2 : CRecord :=
  { name := some "Food Fair", date := some "2024-01-20",
    description := some "Street food", venue := some "Main Square",
    category := some "Food", url := some "", source := some "Local Events" }

/-- A Salesforce behaviour on which every call succeeds. -/
def sfOkEnv : SFEnv :=
  { query := fun _ => Except.ok (some "LOC1")
    event_c_create := fun _ => Except.ok ()
    location_update := fun _ _ _ => Except.ok ()
    now := "2024-01-31" }

/-- Claim C1: `run_event_scraping_for_location` always returns a report (it
is a total function into `RunReport`), and whenever the pipeline body raises
internally — the only raising stage being the cleaning step, since the
scrape loop and `update_salesforce_location` catch locally — the exception
is captured into the report's `error` field with `success = false`. -/
theorem claim_C1_failure_captured (env : Env) (location_name month : String)
    (year : Int) (e : PyError)
    (h : pipeline_cleaned env location_name month year = Except.error e) :
    (run_event_scraping_for_location env location_name month year).1.success = false ∧
    (run_event_scraping_for_location env location_name month year).1.error = some e.msg := by
  simp [run_event_scraping_for_location, h]

/-- Behaviour on which the cleaning LLM returns wrong-shaped JSON, making the
cleaning stage raise. -/
def envC1 : Env :=
  { adapters := [fun _ _ _ => Except.ok [ev1]]
    cleanLLM := fun _ =>
      CleanLLMResult.malformed
        { cls := PyErrorClass.otherError, msg := "string indices must be integers" }
    sf := sfOkEnv }

/-- Claim C1 witness: on `envC1` the internal raise is captured. -/
theorem claim_C1_witness :
    (run_event_scraping_for_location envC1 "Austin" "January" 2024).1.success = false ∧
    (run_event_scraping_for_location envC1 "Austin" "January" 2024).1.error =
      some "string indices must be integers" :=
  claim_C1_failure_captured envC1 "Austin" "January" 2024
    { cls := PyErrorClass.otherError, msg := "string indices must be integers" } rfl

/-- Claim C6: an adapter that raises on the requested input contributes
exactly zero events; the pool equals the concatenation of the results of the
adapters before it and after it, in caller-supplied order, and the loop does
not abort. -/
theorem claim_C6_failing_adapter_isolated
    (pre post : List (String → String → Int → Except PyError (List Event)))
    (f : String → String → Int → Except PyError (List Event))
    (location month : String) (year : Int) (e : PyError)
    (hf : f location month year = Except.error e) :
    scrape_events_from_web (pre ++ f :: post) location month year =
      scrape_events_from_web pre location month year ++
        scrape_events_from_web post location month year := by
  induction pre with
  | nil => simp [scrape_events_from_web, hf]
  | cons g t ih =>
    cases hg : g location month year with
    | ok es => simp [scrape_events_from_web, hg, ih]
    | error e2 => simp [scrape_events_from_web, hg, ih]

/-- An adapter behaviour that always raises a network error. -/
def badAdapter : String → String → Int → Except PyError (List Event) :=
  fun _ _ _ => Except.error { cls := PyErrorClass.networkError, msg := "timeout" }

/-- An adapter behaviour returning `ev1`. -/
def okAdapter1 : String → String → Int → Except PyError (List Event) :=
  fun _ _ _ => Except.ok [ev1]

/-- An adapter behaviour returning `ev2`. -/
def okAdapter2 : String → String → Int → Except PyError (List Event) :=
  fun _ _ _ => Except.ok [ev2]

/-- Claim C6 witness: a failing middle adapter leaves the other two
contributions intact. -/
theorem claim_C6_witness :
    scrape_events_from_web ([okAdapter1] ++ badAdapter :: [okAdapter2])
        "Austin" "January" 2024 =
      scrape_events_from_web [okAdapter1] "Austin" "January" 2024 ++
        scrape_events_from_web [okAdapter2] "Austin" "January" 2024 :=
  claim_C6_failing_adapter_isolated [okAdapter1] [okAdapter2] badAdapter
    "Austin" "January" 2024 { cls := PyErrorClass.networkError, msg := "timeout" } rfl

/-- Claim C9: when the cleaning LLM output fails to parse as JSON,
`process_and_clean_events` returns the original input list unchanged (same
events, same order) and does not raise. -/
theorem claim_C9_decode_error_returns_input (events : List Event) :
    process_and_clean_events events CleanLLMResult.decodeError = Except.ok events := by
  cases events <;> rfl

/-- Behaviour on which cleaning degrades to the identity via a decode error. -/
def envC10 : Env :=
  { adapters := [fun _ _ _ => Except.ok [ev1]]
    cleanLLM := fun _ => CleanLLMResult.decodeError
    sf := sfOkEnv }

/-- Claim C10: on the non-exceptional path the report's `events` list is the
order-preserving `{name, date, venue, category, source}` projection of the
cleaned list, and `cleaned_events_count` equals its length. -/
theorem claim_C10_events_projection (env : Env) (location_name month : String)
    (year : Int) (cleaned : List Event)
    (h : pipeline_cleaned env location_name month year = Except.ok cleaned) :
    (run_event_scraping_for_location env location_name month year).1.events =
      some (cleaned.map projOf) ∧
    (run_event_scraping_for_location env location_name month year).1.cleaned_events_count =
      some (cleaned.map projOf).length := by
  simp [run_event_scraping_for_location, h, List.length_map]

/-- Claim C10 witness: the projection equality holds on `envC10`. -/
theorem claim_C10_witness :
    (run_event_scraping_for_location envC10 "Austin" "January" 2024).1.events =
      some ([ev1].map projOf) ∧
    (run_event_scraping_for_location envC10 "Austin" "January" 2024).1.cleaned_events_count =
      some ([ev1].map projOf).length :=
  claim_C10_events_projection envC10 "Austin" "January" 2024 [ev1] rfl

/-- Length of the cleaning stage's non-exceptional output: it is bounded by
the input length provided the LLM returns no more records than it was given
(on a decode error the input itself is returned). -/
theorem process_and_clean_length_le (events : List Event) (llm : CleanLLMResult)
    (out : List Event)
    (hllm : ∀ rs, llm = CleanLLMResult.records rs → rs.length ≤ events.length)
    (h : process_and_clean_events events llm = Except.ok out) :
    out.length ≤ events.length := by
  cases events with
  | nil =>
    simp [process_and_clean_events] at h
    simp [← h]
  | cons a t =>
    cases llm with
    | decodeError =>
      simp [process_and_clean_events] at h
      simp [← h]
    | records rs =>
      simp [process_and_clean_events] at h
      rw [← h, List.length_map]
      exact hllm rs rfl
    | malformed e => simp [process_and_clean_events] at h

/-- Claim C2 (amended): `cleaned_events_count ≤ raw_events_count` holds on
every run whose cleaning LLM returns at most as many records as the raw pool
contains; the code itself does not bound the LLM's output. -/
theorem claim_C2_cleaned_le_raw (env : Env) (location_name month : String)
    (year : Int)
    (hc : ∀ rs, env.cleanLLM (pipeline_pool env location_name month year) =
            CleanLLMResult.records rs →
          rs.length ≤ (pipeline_pool env location_name month year).length)
    (c r : Nat)
    (hcc : (run_event_scraping_for_location env location_name month year).1.cleaned_events_count = some c)
    (hrc : (run_event_scraping_for_location env location_name month year).1.raw_events_count = some r) :
    c ≤ r := by
  cases hp : pipeline_cleaned env location_name month year with
  | error e => simp [run_event_scraping_for_location, hp] at hcc
  | ok cleaned =>
    simp [run_event_scraping_for_location, hp] at hcc hrc
    have hp2 : process_and_clean_events (pipeline_pool env location_name month year)
        (env.cleanLLM (pipeline_pool env location_name month year)) = Except.ok cleaned := hp
    have hle := process_and_clean_length_le _ _ _ hc hp2
    omega

/-- Behaviour on which the cleaning LLM invents an extra event. -/
def envC2 : Env :=
  { adapters := [fun _ _ _ => Except.ok [ev1]]
    cleanLLM := fun _ => CleanLLMResult.records [crec1, crec2]
    sf := sfOkEnv }

/-- Claim C2 counterexample: with one raw event and a cleaning LLM returning
two records, the report has `raw_events_count = 1` but
`cleaned_events_count = 2`, violating `cleaned ≤ raw`. -/
theorem claim_C2_counterexample :
    (run_event_scraping_for_location envC2 "Austin" "January" 2024).1.raw_events_count = some 1 ∧
    (run_event_scraping_for_location envC2 "Austin" "January" 2024).1.cleaned_events_count = some 2 ∧
    ¬ ((2 : Nat) ≤ 1) :=
  ⟨rfl, rfl, by decide⟩

/-- Behaviour on which the cleaning LLM returns fewer records than the pool. -/
def envC2w : Env :=
  { adapters := [fun _ _ _ => Except.ok [ev1, ev2]]
    cleanLLM := fun _ => CleanLLMResult.records [crec1]
    sf := sfOkEnv }

/-- Claim C2 witness: on `envC2w` the amended inequality holds. -/
theorem claim_C2_witness :
    (run_event_scraping_for_location envC2w "Austin" "January" 2024).1.cleaned_events_count = some 1 ∧
    (run_event_scraping_for_location envC2w "Austin" "January" 2024).1.raw_events_count = some 2 ∧
    (1 : Nat) ≤ 2 :=
  ⟨rfl, rfl,
    claim_C2_cleaned_le_raw envC2w "Austin" "January" 2024
      (by
        intro rs hr
        injection hr with h
        subst h
        decide)
      1 2 rfl rfl⟩

/-- Claim C3 (amended): when the location query finds no record, the run
performs zero Salesforce writes and the report has `success = false`; on the
non-exceptional path (counts present) the `error` key is absent rather than
indicating `LocationNotFound`. -/
theorem claim_C3_location_not_found (env : Env) (location_name month : String)
    (year : Int)
    (hq : env.sf.query location_name = Except.ok none) :
    (run_event_scraping_for_location env location_name month year).1.success = false ∧
    (run_event_scraping_for_location env location_name month year).2 = [] ∧
    ((run_event_scraping_for_location env location_name month year).1.cleaned_events_count ≠ none →
      (run_event_scraping_for_location env location_name month year).1.error = none) := by
  cases hp : pipeline_cleaned env location_name month year with
  | error e => simp [run_event_scraping_for_location, hp]
  | ok cleaned =>
    simp [run_event_scraping_for_location, hp, update_salesforce_location, hq]

/-- Behaviour on which the location query returns no records. -/
def envC3 : Env :=
  { adapters := [fun _ _ _ => Except.ok [ev1]]
    cleanLLM := fun _ => CleanLLMResult.decodeError
    sf := { query := fun _ => Except.ok none
            event_c_create := fun _ => Except.ok ()
            location_update := fun _ _ _ => Except.ok ()
            now := "2024-01-31" } }

/-- Claim C3 counterexample: with `find_location` returning none the report
has `success = false` and zero writes, but its `error` field is ABSENT
(`none`) — it does not indicate `LocationNotFound` as the claim states. -/
theorem claim_C3_counterexample :
    (run_event_scraping_for_location envC3 "Nowhere" "January" 2024).1.success = false ∧
    (run_event_scraping_for_location envC3 "Nowhere" "January" 2024).1.error = none ∧
    (run_event_scraping_for_location envC3 "Nowhere" "January" 2024).2 = [] :=
  ⟨rfl, rfl, rfl⟩

/-- Claim C3 witness: the amended statement evaluated on `envC3`. -/
theorem claim_C3_witness :
    (run_event_scraping_for_location envC3 "Nowhere" "January" 2024).1.success = false ∧
    (run_event_scraping_for_location envC3 "Nowhere" "January" 2024).2 = [] ∧
    ((run_event_scraping_for_location envC3 "Nowhere" "January" 2024).1.cleaned_events_count ≠ none →
      (run_event_scraping_for_location envC3 "Nowhere" "January" 2024).1.error = none) :=
  claim_C3_location_not_found envC3 "Nowhere" "January" 2024 rfl

/-- Claim C4 (amended): once the location is resolved, the summary-field
fallback triggers on EVERY failure class of the detail-record write (the
inner `except:` is bare), and only a successful detail-record write avoids
the fallback. -/
theorem claim_C4_fallback_on_any_error (env : SFEnv) (location_name : String)
    (events : List Event) (location_id : String)
    (hq : env.query location_name = Except.ok (some location_id)) :
    (∀ e, env.event_c_create (events.map (sfRecOf location_id)) = Except.error e →
      env.location_update location_id ((events.take 10).map sumRecOf) env.now = Except.ok () →
      update_salesforce_location env location_name events =
        (true, [Write.updateSummary location_id ((events.take 10).map sumRecOf) env.now])) ∧
    (env.event_c_create (events.map (sfRecOf location_id)) = Except.ok () →
      update_salesforce_location env location_name events =
        (true, [Write.createDetail (events.map (sfRecOf location_id))])) := by
  constructor
  · intro e hcreate hupdate
    rw [List.map_take] at hupdate
    simp [update_salesforce_location, hq, hcreate, hupdate]
  · intro hcreate
    simp [update_salesforce_location, hq, hcreate]

/-- Salesforce behaviour on which the detail-record create fails with a
network error (not a schema-not-found error). -/
def sfEnvC4 : SFEnv :=
  { query := fun _ => Except.ok (some "LOC1")
    event_c_create := fun _ =>
      Except.error { cls := PyErrorClass.networkError, msg := "timeout" }
    location_update := fun _ _ _ => Except.ok ()
    now := "2024-01-31" }

/-- Claim C4 counterexample: a NETWORK failure of the detail-record write
(not the schema-not-found class) still triggers the summary-field fallback,
refuting the "only if schema-not-found" direction. -/
theorem claim_C4_counterexample :
    update_salesforce_location sfEnvC4 "Austin" [ev1] =
      (true, [Write.updateSummary "LOC1" [sumRecOf ev1] "2024-01-31"]) ∧
    PyErrorClass.networkError ≠ PyErrorClass.schemaNotFound :=
  ⟨rfl, by decide⟩

/-- Claim C4 witness: the amended fallback condition evaluated on `sfEnvC4`. -/
theorem claim_C4_witness :
    update_salesforce_location sfEnvC4 "Austin" [ev2] =
      (true, [Write.updateSummary "LOC1" (([ev2].take 10).map sumRecOf) sfEnvC4.now]) :=
  (claim_C4_fallback_on_any_error sfEnvC4 "Austin" [ev2] "LOC1" rfl).1
    { cls := PyErrorClass.networkError, msg := "timeout" } rfl rfl

/-- Claim C5: any summary-field write performed by
`update_salesforce_location` carries at most 10 events (the list is truncated
with `events[:10]` before serialization) and the current-date timestamp. -/
theorem claim_C5_summary_bounded (env : SFEnv) (location_name : String)
    (events : List Event) (location_id : String) (summary : List SumRec)
    (ts : String)
    (h : Write.updateSummary location_id summary ts ∈
          (update_salesforce_location env location_name events).2) :
    summary.length ≤ 10 ∧ ts = env.now := by
  cases hq : env.query location_name with
  | error e => simp [update_salesforce_location, hq] at h
  | ok r =>
    cases r with
    | none => simp [update_salesforce_location, hq] at h
    | some lid =>
      cases hc : env.event_c_create (events.map (sfRecOf lid)) with
      | ok u => simp [update_salesforce_location, hq, hc] at h
      | error e =>
        cases hu : env.location_update lid ((events.take 10).map sumRecOf) env.now with
        | ok u =>
          simp only [update_salesforce_location, hq, hc, hu, List.mem_singleton] at h
          injection h with h1 h2 h3
          subst h2
          subst h3
          refine ⟨?_, rfl⟩
          rw [List.length_map, List.length_take]
          exact min_le_left _ _
        | error e2 =>
          simp only [update_salesforce_location, hq, hc, hu, Prod.snd] at h
          simp at h

/-- Salesforce behaviour on which the detail-record type is missing. -/
def sfEnvC5 : SFEnv :=
  { query := fun _ => Except.ok (some "LOC1")
    event_c_create := fun _ =>
      Except.error { cls := PyErrorClass.schemaNotFound, msg := "NOT_FOUND: Event__c" }
    location_update := fun _ _ _ => Except.ok ()
    now := "2024-01-31" }

/-- Claim C5 witness: the bound and the timestamp on `sfEnvC5`. -/
theorem claim_C5_witness :
    ([sumRecOf ev1].length ≤ 10 ∧ "2024-01-31" = sfEnvC5.now) :=
  claim_C5_summary_bounded sfEnvC5 "Austin" [ev1] "LOC1" [sumRecOf ev1]
    "2024-01-31" (by decide)

/-- Description of a prepared `Event__c` record: it is the 255-character
truncation of the event's description (the `else ''` branch coincides with
truncating the empty string). -/
theorem sfRecOf_description (location_id : String) (e : Event) :
    (sfRecOf location_id e).Description = pyTake e.description 255 ∧
    (sfRecOf location_id e).Description.length ≤ 255 := by
  constructor
  · show (if e.description = "" then "" else pyTake e.description 255) =
      pyTake e.description 255
    by_cases hd : e.description = ""
    · rw [if_pos hd, hd]
      decide
    · rw [if_neg hd]
  · show (if e.description = "" then "" else pyTake e.description 255).length ≤ 255
    by_cases hd : e.description = ""
    · rw [if_pos hd]
      decide
    · rw [if_neg hd]
      show (e.description.data.take 255).length ≤ 255
      rw [List.length_take]
      exact min_le_left _ _

/-- Claim C7: every record persisted by the detail-records write carries a
Description equal to the first 255 characters of some input event's
description, hence of length at most 255. -/
theorem claim_C7_description_truncated (env : SFEnv) (location_name : String)
    (events : List Event) (recs : List SFRec)
    (h : Write.createDetail recs ∈ (update_salesforce_location env location_name events).2) :
    ∀ r ∈ recs, r.Description.length ≤ 255 ∧
      ∃ e ∈ events, r.Description = pyTake e.description 255 := by
  cases hq : env.query location_name with
  | error e0 => simp [update_salesforce_location, hq] at h
  | ok ro =>
    cases ro with
    | none => simp [update_salesforce_location, hq] at h
    | some lid =>
      cases hc : env.event_c_create (events.map (sfRecOf lid)) with
      | ok u =>
        simp only [update_salesforce_location, hq, hc, List.mem_singleton] at h
        injection h with hrecs
        subst hrecs
        intro r hr
        rcases List.mem_map.mp hr with ⟨e, he, rfl⟩
        exact ⟨(sfRecOf_description lid e).2, e, he, (sfRecOf_description lid e).1⟩
      | error e0 =>
        cases hu : env.location_update lid ((events.take 10).map sumRecOf) env.now with
        | ok u =>
          simp only [update_salesforce_location, hq, hc, hu, List.mem_singleton] at h
          cases h
        | error e2 =>
          simp only [update_salesforce_location, hq, hc, hu] at h
          simp at h

/-- Claim C7 witness: the truncation property for the record built from
`ev1` on the all-success Salesforce behaviour. -/
theorem claim_C7_witness :
    (sfRecOf "LOC1" ev1).Description.length ≤ 255 ∧
      ∃ e ∈ [ev1], (sfRecOf "LOC1" ev1).Description = pyTake e.description 255 :=
  claim_C7_description_truncated sfOkEnv "Austin" [ev1] [sfRecOf "LOC1" ev1]
    (by decide) (sfRecOf "LOC1" ev1) (by decide)

/-- Unfolding of `fpCount` on a cons cell. -/
theorem fpCount_cons (a : Event) (t : List Event) (n d : String) :
    fpCount (a :: t) n d =
      (if a.name = n ∧ a.date = d then 1 else 0) + fpCount t n d := by
  by_cases h : a.name = n ∧ a.date = d
  · simp [fpCount, List.filter_cons, h, Nat.add_comm]
  · simp [fpCount, List.filter_cons, h]

/-- A list none of whose events carries the fingerprint has count zero. -/
theorem fpCount_eq_zero (l : List Event) (n d : String)
    (h : ∀ e ∈ l, ¬(e.name = n ∧ e.date = d)) : fpCount l n d = 0 := by
  induction l with
  | nil => rfl
  | cons a t ih =>
    rw [fpCount_cons, if_neg (h a (List.mem_cons_self a t))]
    simpa using ih fun e he => h e (List.mem_cons_of_mem a he)

/-- A fingerprint-pairwise-distinct list containing the fingerprint has
count exactly one. -/
theorem fpCount_eq_one (l : List Event) (n d : String)
    (hpw : l.Pairwise fun a b => ¬(a.name = b.name ∧ a.date = b.date))
    (hmem : ∃ e ∈ l, e.name = n ∧ e.date = d) : fpCount l n d = 1 := by
  induction l with
  | nil => simp at hmem
  | cons a t ih =>
    rw [fpCount_cons]
    rcases List.pairwise_cons.mp hpw with ⟨ha, hpt⟩
    by_cases hA : a.name = n ∧ a.date = d
    · rw [if_pos hA]
      have hz : ∀ e ∈ t, ¬(e.name = n ∧ e.date = d) := by
        intro e he hE
        exact ha e he ⟨hA.1.trans hE.1.symm, hA.2.trans hE.2.symm⟩
      rw [fpCount_eq_zero t n d hz]
    · rw [if_neg hA]
      rcases hmem with ⟨e, he, hE⟩
      rcases List.mem_cons.mp he with rfl | het
      · exact absurd hE hA
      · simpa using ih hpt ⟨e, het, hE⟩

/-- Claim C8 counterexample: two raw events with identical name and date
survive cleaning as TWO entries when the cleaning LLM output fails to parse
(the code returns the input unchanged and performs no deduplication of its
own), refuting "exactly one canonical Event per fingerprint". -/
theorem claim_C8_counterexample :
    ev1.name = ev2.name ∧ ev1.date = ev2.date ∧
    process_and_clean_events [ev1, ev2] CleanLLMResult.decodeError =
      Except.ok [ev1, ev2] ∧
    fpCount [ev1, ev2] "Jazz Night" "2024-01-15" = 2 :=
  ⟨rfl, rfl, rfl, rfl⟩

/-- Claim C8 (amended): deduplication is delegated to the cleaning LLM; the
cleaned output is exactly the LLM's record list, so a fingerprint occurs
exactly once in the output whenever the LLM's records are
fingerprint-pairwise-distinct and contain it.  The code itself enforces no
uniqueness (see the counterexample). -/
theorem claim_C8_dedup_delegated (events : List Event) (rs : List CRecord)
    (n d : String) (out : List Event)
    (hne : events ≠ [])
    (hpw : (rs.map eventOfRecord).Pairwise fun a b => ¬(a.name = b.name ∧ a.date = b.date))
    (hmem : ∃ e ∈ rs.map eventOfRecord, e.name = n ∧ e.date = d)
    (hout : process_and_clean_events events (CleanLLMResult.records rs) = Except.ok out) :
    fpCount out n d = 1 := by
  cases events with
  | nil => exact absurd rfl hne
  | cons a t =>
    simp only [process_and_clean_events, Except.ok.injEq] at hout
    subst hout
    exact fpCount_eq_one _ n d hpw hmem

/-- Claim C8 witness: a well-behaved LLM record list yields count one. -/
theorem claim_C8_witness :
    fpCount ([crec1, crec2].map eventOfRecord) "Jazz Night" "2024-01-15" = 1 :=
  claim_C8_dedup_delegated [ev1] [crec1, crec2] "Jazz Night" "2024-01-15"
    ([crec1, crec2].map eventOfRecord) (by decide) (by decide) (by decide) rfl
